import Mathlib

/-!
Shallow embedding of the responsive sidebar subsystem from the blog post
source in src/content/post/Responsive-animated-sidebar-layout-react-tailwind.md
(components Layout, Header, NavBar, NavHeader, NavItem and the routes list),
together with a small semantics of the Tailwind utility classes the
components use (display, width, flex direction, the lg breakpoint).

Components emit a declarative UI tree of elements carrying a tag, a list of
class tokens, an optional click action and children.  The single piece of
state is the boolean isMinimized owned by NavBar (false = EXPANDED,
true = MINIMIZED).
-/

namespace Sidebar

/-- A click handler in the subsystem.  The only mutator is the toggle
passed from NavBar into NavHeader. -/
inductive Action where
  | toggle
deriving DecidableEq, Repr

/-- A node of the emitted UI tree: an element with tag, class tokens,
optional click action and children, or a text leaf. -/
inductive Node where
  | elem (tag : String) (classes : List String) (onClick : Option Action) (children : List Node)
  | text (s : String)
deriving Repr

mutual

/-- Boolean structural equality on UI nodes. -/
def Node.beq : Node → Node → Bool
  | .elem t1 c1 a1 cs1, .elem t2 c2 a2 cs2 =>
      t1 == t2 && c1 == c2 && a1 == a2 && Node.beqList cs1 cs2
  | .text s1, .text s2 => s1 == s2
  | _, _ => false

/-- Boolean structural equality on lists of UI nodes. -/
def Node.beqList : List Node → List Node → Bool
  | [], [] => true
  | n :: ns, m :: ms => Node.beq n m && Node.beqList ns ms
  | _, _ => false

end

mutual

theorem Node.beq_iff : ∀ (a b : Node), Node.beq a b = true ↔ a = b
  | .elem t1 c1 a1 cs1, .elem t2 c2 a2 cs2 => by
      simp [Node.beq, Node.beqList_iff cs1 cs2, Node.elem.injEq, and_assoc]
  | .text s1, .text s2 => by simp [Node.beq]
  | .elem _ _ _ _, .text _ => by simp [Node.beq]
  | .text _, .elem _ _ _ _ => by simp [Node.beq]

theorem Node.beqList_iff : ∀ (as bs : List Node), Node.beqList as bs = true ↔ as = bs
  | [], [] => by simp [Node.beqList]
  | [], _ :: _ => by simp [Node.beqList]
  | _ :: _, [] => by simp [Node.beqList]
  | a :: as, b :: bs => by
      simp [Node.beqList, Node.beq_iff a b, Node.beqList_iff as bs]

end

instance : DecidableEq Node :=
  fun a b => decidable_of_iff (Node.beq a b = true) (Node.beq_iff a b)

mutual

/-- Whether target occurs as a subtree of the given node. -/
def containsNode (target : Node) : Node → Bool
  | .text s => Node.beq (.text s) target
  | .elem t c a cs => Node.beq (.elem t c a cs) target || containsList target cs

/-- Whether target occurs as a subtree of one of the given nodes. -/
def containsList (target : Node) : List Node → Bool
  | [] => false
  | n :: ns => containsNode target n || containsList target ns

end

/-- The two responsive layout modes: below the lg breakpoint (narrow) and
at or above it (wide). -/
inductive Mode where
  | narrow
  | wide
deriving DecidableEq, Repr

def Node.tag : Node → String
  | .elem t _ _ _ => t
  | .text _ => ""

def Node.classes : Node → List String
  | .elem _ c _ _ => c
  | .text _ => []

def Node.children : Node → List Node
  | .elem _ _ _ cs => cs
  | .text _ => []

/-- JS template-literal interpolation of `b && cls` into a class string:
when b is true the class token is added, when b is false the JS value
false is stringified, contributing the junk token "false" (as in the
source, which interpolates a boolean and-expression into className). -/
def jsAndClass (b : Bool) (cls : String) : String :=
  if b then cls else "false"

/-- The characters of the lg breakpoint marker. -/
def lgMark : List Char := ['l', 'g', ':']

/-- Whether a class token is scoped to the lg breakpoint. -/
def startsWithLg (c : String) : Bool := List.isPrefixOf lgMark c.data

/-- Strip the lg breakpoint marker from a token. -/
def dropLg (c : String) : String := String.mk (c.data.drop 3)

/-- Class tokens of a class list that are not scoped to the lg breakpoint. -/
def baseToks (classes : List String) : List String :=
  classes.filter (fun c => !(startsWithLg c))

/-- Class tokens scoped to the lg breakpoint, with the "lg:" marker
stripped. -/
def lgToks (classes : List String) : List String :=
  (classes.filter startsWithLg).map dropLg

/-- CSS display value set by a single (unprefixed) Tailwind token, when
it sets one. -/
def displayOfTok : String → Option String
  | "hidden" => some "none"
  | "flex" => some "flex"
  | _ => none

/-- The display value the stylesheet assigns at a given mode: within one
breakpoint stratum later rules win, and at wide the lg stratum is emitted
after the base stratum, so an lg rule overrides a base rule there. -/
def effectiveDisplay (m : Mode) (classes : List String) : Option String :=
  match m with
  | .narrow => ((baseToks classes).filterMap displayOfTok).getLast?
  | .wide =>
      (((lgToks classes).filterMap displayOfTok).getLast?).orElse
        (fun _ => ((baseToks classes).filterMap displayOfTok).getLast?)

/-- An element with these classes is displayed at mode m unless its
effective display is none (no display utility leaves the element default,
which is visible). -/
def visibleAt (m : Mode) (classes : List String) : Bool :=
  effectiveDisplay m classes ≠ some "none"

/-- A CSS width as set by the Tailwind width utilities in use. -/
inductive TWidth where
  | lit (v : String)
  | auto
  | full
  | screen
deriving DecidableEq, Repr

/-- The characters opening an arbitrary-value width token. -/
def wBracketMark : List Char := ['w', '-', '[']

/-- Width value set by a single (unprefixed) Tailwind token: w-full,
w-auto, w-screen, or an arbitrary-value literal w-[v]. -/
def widthOfTok (t : String) : Option TWidth :=
  if t = "w-full" then some .full
  else if t = "w-auto" then some .auto
  else if t = "w-screen" then some .screen
  else if List.isPrefixOf wBracketMark t.data && t.data.getLast? == some ']' then
    some (.lit (String.mk ((t.data.drop 3).dropLast)))
  else none

/-- The width the stylesheet assigns at a given mode, with the same
stratum ordering as effectiveDisplay. -/
def widthAt (m : Mode) (classes : List String) : Option TWidth :=
  match m with
  | .narrow => ((baseToks classes).filterMap widthOfTok).getLast?
  | .wide =>
      (((lgToks classes).filterMap widthOfTok).getLast?).orElse
        (fun _ => ((baseToks classes).filterMap widthOfTok).getLast?)

/-- Flex direction set by a single (unprefixed) Tailwind token. -/
def directionOfTok : String → Option String
  | "flex-row" => some "row"
  | "flex-row-reverse" => some "row-reverse"
  | "flex-col" => some "col"
  | "flex-col-reverse" => some "col-reverse"
  | _ => none

/-- The flex direction the stylesheet assigns at a given mode. -/
def effectiveDirection (m : Mode) (classes : List String) : Option String :=
  match m with
  | .narrow => ((baseToks classes).filterMap directionOfTok).getLast?
  | .wide =>
      (((lgToks classes).filterMap directionOfTok).getLast?).orElse
        (fun _ => ((baseToks classes).filterMap directionOfTok).getLast?)

/-- The characters of the reverse direction suffix. -/
def reverseMark : List Char := ['r', 'e', 'v', 'e', 'r', 's', 'e']

/-- Whether a flex direction value is one of the reverse directions. -/
def dirReversed (d : String) : Bool := List.isSuffixOf reverseMark d.data

/-- Visual order of a flex container's children at a mode: a reverse
direction displays the children in reverse of their tree order. -/
def visualOrder (m : Mode) (n : Node) : List Node :=
  if dirReversed ((effectiveDirection m n.classes).getD "row") then
    n.children.reverse
  else
    n.children

/-! ## The data model and components, translated from the source. -/

/-- One navigation entry of the routes configuration: display text and an
icon element.  Fields are optional because the defensive contract of
NavItem supplies defaults for missing ones. -/
structure Route where
  text : Option String
  icon : Option Node

/-- Icon element from react-icons used by the routes list. -/
def HiInbox : Node := Node.elem "HiInbox" [] none []

/-- Icon element from react-icons used by the routes list. -/
def HiRectangleGroup : Node := Node.elem "HiRectangleGroup" [] none []

/-- Icon element from react-icons used by the routes list. -/
def BsPeopleFill : Node := Node.elem "BsPeopleFill" [] none []

/-- Icon element from react-icons used by the routes list. -/
def HiBookOpen : Node := Node.elem "HiBookOpen" [] none []

/-- Icon element from react-icons used by the NavHeader toggle control. -/
def HiChevronDoubleLeft : Node := Node.elem "HiChevronDoubleLeft" [] none []

/-- The routes list of src/constants/routes.js.  The source has a syntax
slip there (the array literal is missing its opening bracket); it is the
evident well-formed ordered sequence of the four entries. -/
def routes : List Route :=
  [ ⟨some "Inbox", some HiInbox⟩
  , ⟨some "Projects", some HiRectangleGroup⟩
  , ⟨some "Recruiting", some BsPeopleFill⟩
  , ⟨some "Learning", some HiBookOpen⟩ ]

/-- The state transition of the single boolean state machine, from the
NavBar source: setIsMinimized applied to the function negating the
current value. -/
def toggle (current : Bool) : Bool := !current

/-- The useState initializer of NavBar: false, so the sidebar starts
EXPANDED. -/
def initialIsMinimized : Bool := false

/-- A fresh mount of NavBar runs the useState initializer again, so the
state after a fresh mount is the initializer value regardless of any
state a previous instance held before unmounting; nothing in the source
persists the value anywhere. -/
def mountStateAfter (_previous : Bool) : Bool := initialIsMinimized

/-- Class tokens of the NavItem root div. -/
def navItemRootClasses : List String :=
  ["group", "flex-grow", "lg:flex-grow-0", "flex", "flex-col", "lg:flex-row",
   "items-center", "p-4", "cursor-pointer", "rounded-lg", "hover:bg-gray-600"]

/-- Class tokens of the NavItem icon wrapper div. -/
def navItemIconClasses : List String :=
  ["flex", "justify-center", "items-center", "text-4xl", "text-gray-400",
   "group-hover:text-gray-100"]

/-- Class tokens of the NavItem label paragraph: the static tokens plus
the template-literal interpolation of isMinimized and lg:hidden. -/
def navItemLabelClasses (isMinimized : Bool) : List String :=
  ["text-sm", "lg:text-lg", "lg:ml-4", "text-gray-200"]
    ++ [jsAndClass isMinimized "lg:hidden"]

/-- The NavItem component: icon wrapper plus label paragraph, with the
default parameter values of the source for missing text and icon props. -/
def NavItem (text : Option String) (icon : Option Node) (isMinimized : Bool) : Node :=
  Node.elem "div" navItemRootClasses none
    [ Node.elem "div" navItemIconClasses none [icon.getD (Node.text "")]
    , Node.elem "p" (navItemLabelClasses isMinimized) none
        [Node.text (text.getD "Default")] ]

/-- The branding block of NavHeader (logo square plus stacked text),
rendered only when not minimized. -/
def brandingBlock : Node :=
  Node.elem "div" ["flex-shrink-0", "flex", "items-center", "mr-12"] none
    [ Node.elem "div"
        ["flex", "items-center", "justify-center", "w-12", "h-12", "rounded-lg",
         "bg-gray-600", "text-2xl"] none [Node.text "J"]
    , Node.elem "div" ["flex", "flex-col", "p-2"] none
        [ Node.elem "h6" ["text-lg", "text-gray-200"] none [Node.text "The Junto"]
        , Node.elem "p" ["text-sm", "text-gray-300"] none [Node.text "Tailwind Demo"] ] ]

/-- Class tokens of the div around the chevron icon, with the
template-literal interpolation of isMinimized and rotate-180. -/
def toggleControlClasses (isMinimized : Bool) : List String :=
  ["text-gray-400", "text-3xl", "cursor-pointer", "hover:text-gray-300",
   "transition", "duration-200"]
    ++ [jsAndClass isMinimized "rotate-180"]

/-- The div around the chevron icon; its onClick invokes the onToggle
prop, which NavBar wires to the toggle mutator. -/
def toggleControl (isMinimized : Bool) : Node :=
  Node.elem "div" (toggleControlClasses isMinimized) (some Action.toggle)
    [HiChevronDoubleLeft]

/-- Class tokens of the NavHeader root div. -/
def navHeaderRootClasses : List String :=
  ["hidden", "lg:flex", "items-center", "justify-between", "p-4", "lg:h-20"]

/-- The NavHeader component: conditionally mounted branding block (the
JSX and-expression renders nothing when isMinimized) plus the always
rendered toggle control. -/
def NavHeader (isMinimized : Bool) : Node :=
  Node.elem "div" navHeaderRootClasses none
    ((if isMinimized then [] else [brandingBlock]) ++ [toggleControl isMinimized])

/-- Class tokens of the NavBar nav element, including the conditional
width class of the final source version. -/
def navBarClasses (isMinimized : Bool) : List String :=
  ["bg-gray-900", "text-gray-100", "lg:flex-shrink-0", "flex", "flex-row",
   "justify-around", "lg:flex-col", "lg:justify-start", "w-full",
   if isMinimized then "lg:w-[5.5rem]" else "lg:w-[18rem]",
   "lg:p-2", "lg:overflow-y-auto", "lg:transition-[width]", "lg:duration-200"]

/-- The NavBar component rendered at a given state: NavHeader followed by
one NavItem per route, in route order.  The route sequence is the
configuration input (the source imports it as a module constant). -/
def NavBar (rs : List Route) (isMinimized : Bool) : Node :=
  Node.elem "nav" (navBarClasses isMinimized) none
    (NavHeader isMinimized :: rs.map (fun r => NavItem r.text r.icon isMinimized))

/-- The static page Header component. -/
def Header : Node :=
  Node.elem "div" ["w-full", "p-4"] none
    [ Node.elem "h1" ["text-lg", "mb-4"] none [Node.text "The Junto"]
    , Node.elem "hr" [] none [] ]

/-- Class tokens of the Layout root div. -/
def layoutRootClasses : List String :=
  ["h-screen", "w-screen", "overflow-hidden", "flex", "flex-col-reverse",
   "lg:flex-row", "lg:overflow-y-auto", "lg:overflow-x-hidden"]

/-- The content region of Layout: Header above the injected children. -/
def contentRegion (children : List Node) : Node :=
  Node.elem "div" ["flex", "flex-col", "overflow-y-auto"] none (Header :: children)

/-- The Layout component.  It is itself stateless; the sidebar state it
shows belongs to the NavBar instance inside it, threaded here explicitly
because the embedding passes state explicitly. -/
def Layout (isMinimized : Bool) (children : List Node) : Node :=
  Node.elem "div" layoutRootClasses none
    [NavBar routes isMinimized, contentRegion children]

/-! ## Stylesheet contents and narrow-mode resolution.

Tailwind generates a CSS rule only for tokens that are valid utility
classes; the token "false" that JS template-literal interpolation leaves
in a className when the interpolated and-expression is false is not a
utility, so no rule exists for it and it has no effect on rendering. -/

/-- All valid Tailwind utility tokens used by the components, i.e. the
tokens the generated stylesheet has rules for.  The junk token "false"
is not a utility and is deliberately not here. -/
def knownUtilities : List String :=
  ["h-screen", "w-screen", "overflow-hidden", "flex", "flex-col-reverse",
   "lg:flex-row", "lg:overflow-y-auto", "lg:overflow-x-hidden",
   "flex-col", "overflow-y-auto", "w-full", "p-4", "text-lg", "mb-4",
   "bg-gray-900", "text-gray-100", "lg:flex-shrink-0", "flex-row",
   "justify-around", "lg:flex-col", "lg:justify-start", "lg:w-[5.5rem]",
   "lg:w-[18rem]", "lg:p-2", "lg:transition-[width]", "lg:duration-200",
   "hidden", "lg:flex", "items-center", "justify-between", "lg:h-20",
   "flex-shrink-0", "mr-12", "justify-center", "w-12", "h-12", "rounded-lg",
   "bg-gray-600", "text-2xl", "p-2", "text-gray-200", "text-sm", "text-gray-300",
   "text-gray-400", "text-3xl", "cursor-pointer", "hover:text-gray-300",
   "transition", "duration-200", "rotate-180",
   "group", "flex-grow", "lg:flex-grow-0", "hover:bg-gray-600", "text-4xl",
   "group-hover:text-gray-100", "lg:text-lg", "lg:ml-4", "lg:hidden"]

/-- The class tokens that contribute any styling below the lg breakpoint:
tokens with a stylesheet rule that are not scoped to lg. -/
def narrowClasses (classes : List String) : List String :=
  classes.filter (fun c => !(startsWithLg c) && knownUtilities.contains c)

mutual

/-- The rendering of a tree under the narrow-viewport layout mode: each
element keeps exactly the class tokens that style it there. -/
def resolveNarrow : Node → Node
  | .text s => .text s
  | .elem t c a cs => .elem t (narrowClasses c) a (resolveNarrowList cs)

/-- resolveNarrow on each node of a list. -/
def resolveNarrowList : List Node → List Node
  | [] => []
  | n :: ns => resolveNarrow n :: resolveNarrowList ns

end

/-! ## Interaction model.

A user activation can reach a click handler only if the element carrying
it is displayed: an element whose effective display is none is removed
from display together with its whole subtree. -/

mutual

/-- The click actions reachable by user activation at a mode: actions on
displayed elements, where display none removes the subtree. -/
def reachableActions (m : Mode) : Node → List Action
  | .text _ => []
  | .elem _ c a cs =>
      if visibleAt m c then a.toList ++ reachableActionsList m cs else []

/-- reachableActions over a list of sibling nodes. -/
def reachableActionsList (m : Mode) : List Node → List Action
  | [] => []
  | n :: ns => reachableActions m n ++ reachableActionsList m ns

end

/-- Effect of a click action on the sidebar state. -/
def applyAction : Action → Bool → Bool
  | .toggle, s => toggle s

/-- One user activation step at a mode: an action changes the state only
if some displayed element of the rendered NavBar carries it. -/
def clickStep (m : Mode) (rs : List Route) (s : Bool) (a : Action) : Bool :=
  if a ∈ reachableActions m (NavBar rs s) then applyAction a s else s

/-! ## The claims. -/

/-- C1: For every Route and both values of SidebarState, the NavItem
rendered under the narrow-viewport layout mode is identical whether the
state is EXPANDED or MINIMIZED; the label paragraph is visible in the
narrow layout in both states, and the conditionally added lg:hidden
class hides it only within the wide-viewport layout mode. -/
theorem navitem_narrow_render_state_independent (text : Option String)
    (icon : Option Node) :
    resolveNarrow (NavItem text icon true) = resolveNarrow (NavItem text icon false)
    ∧ visibleAt .narrow (navItemLabelClasses true) = true
    ∧ visibleAt .narrow (navItemLabelClasses false) = true
    ∧ visibleAt .wide (navItemLabelClasses true) = false
    ∧ visibleAt .wide (navItemLabelClasses false) = true := by
  have h : narrowClasses (navItemLabelClasses true)
      = narrowClasses (navItemLabelClasses false) := by decide
  refine ⟨?_, by decide, by decide, by decide, by decide⟩
  simp [NavItem, resolveNarrow, resolveNarrowList, h]

/-- C2: In the narrow-viewport layout Layout displays the navigation
region after the content region, in the wide-viewport layout it displays
the navigation region before the content region, and the arrangement is
selected purely by viewport width: the root class list of Layout does
not depend on SidebarState and the order holds for every state. -/
theorem layout_region_order (s : Bool) (children : List Node) :
    visualOrder .narrow (Layout s children)
      = [contentRegion children, NavBar routes s]
    ∧ visualOrder .wide (Layout s children)
      = [NavBar routes s, contentRegion children]
    ∧ (Layout s children).classes = layoutRootClasses := by
  have hn : dirReversed ((effectiveDirection .narrow layoutRootClasses).getD "row")
      = true := by decide
  have hw : dirReversed ((effectiveDirection .wide layoutRootClasses).getD "row")
      = false := by decide
  refine ⟨?_, ?_, rfl⟩ <;>
    simp [visualOrder, Layout, Node.classes, Node.children, hn, hw]

/-- C3: NavBar's wide-viewport width is the literal 18rem when EXPANDED
and the literal 5.5rem when MINIMIZED, and for neither state is it the
automatic intrinsic size. -/
theorem navbar_wide_width_literals :
    widthAt .wide (navBarClasses false) = some (.lit "18rem")
    ∧ widthAt .wide (navBarClasses true) = some (.lit "5.5rem")
    ∧ ∀ s : Bool, widthAt .wide (navBarClasses s) ≠ some .auto := by
  refine ⟨by decide, by decide, ?_⟩
  intro s
  cases s <;> decide

/-- C4: toggle is an involution on SidebarState, and from the initial
state two toggles reproduce exactly the initial NavBar rendering for any
route sequence. -/
theorem toggle_involution (s : Bool) (rs : List Route) :
    toggle (toggle s) = s
    ∧ NavBar rs (toggle (toggle initialIsMinimized)) = NavBar rs initialIsMinimized := by
  constructor
  · cases s <;> rfl
  · rfl

/-- C5: every fresh mount of NavBar initializes SidebarState to EXPANDED
(isMinimized = false) regardless of any prior state, and the initial
render shows the branding block, an unrotated control, and the wide
literal width. -/
theorem navbar_mount_expanded (prior : Bool) :
    mountStateAfter prior = false
    ∧ initialIsMinimized = false
    ∧ brandingBlock ∈ (NavHeader initialIsMinimized).children
    ∧ "rotate-180" ∉ (toggleControl initialIsMinimized).classes
    ∧ widthAt .wide (navBarClasses initialIsMinimized) = some (.lit "18rem") := by
  exact ⟨rfl, rfl, by decide, by decide, by decide⟩

/-- C6: NavHeader contains the branding block in its emitted subtree if
and only if the state is EXPANDED (so when MINIMIZED it is entirely
absent from the tree), the toggle control is rendered in both states,
and its icon carries the 180-degree rotation class exactly when the
state is MINIMIZED. -/
theorem navheader_branding_iff_expanded (b : Bool) :
    (containsNode brandingBlock (NavHeader b) = true ↔ b = false)
    ∧ toggleControl b ∈ (NavHeader b).children
    ∧ ("rotate-180" ∈ (toggleControl b).classes ↔ b = true) := by
  cases b <;> exact ⟨by decide, by decide, by decide⟩

/-- C7: for both values of SidebarState NavHeader's root element carries
the fixed block height class lg:h-20, and its whole root class list is
the same in both states. -/
theorem navheader_fixed_height (b : Bool) :
    "lg:h-20" ∈ (NavHeader b).classes
    ∧ (NavHeader b).classes = (NavHeader (!b)).classes := by
  cases b <;> exact ⟨by decide, rfl⟩

/-- C8: for every route sequence and both values of SidebarState, NavBar
renders exactly one NavItem per route, after the header slot and in the
order of the input sequence. -/
theorem navbar_renders_items_in_order (rs : List Route) (b : Bool) :
    (NavBar rs b).children
      = NavHeader b :: rs.map (fun r => NavItem r.text r.icon b)
    ∧ ((NavBar rs b).children.drop 1).length = rs.length := by
  constructor
  · rfl
  · simp [NavBar, Node.children]

/-- C9: a Route entry missing its label renders exactly as one carrying
the fallback label "Default", and one missing its icon renders exactly
as one carrying the empty icon slot; rendering never fails (NavItem is a
total function). -/
theorem navitem_fallbacks (b : Bool) :
    (∀ icon : Option Node, NavItem none icon b = NavItem (some "Default") icon b)
    ∧ (∀ text : Option String, NavItem text none b = NavItem text (some (Node.text "")) b) := by
  exact ⟨fun _ => rfl, fun _ => rfl⟩

/-- C10: in the narrow-viewport layout mode NavHeader's root element is
removed from display (class hidden, flex only at lg), so no sequence of
user activations available in the narrow layout can change SidebarState. -/
theorem narrow_mode_state_never_changes (s : Bool) (acts : List Action) :
    List.foldl (clickStep .narrow routes) s acts = s
    ∧ visibleAt .narrow navHeaderRootClasses = false := by
  have hstep : ∀ (t : Bool) (a : Action), clickStep .narrow routes t a = t := by
    intro t a
    have h : reachableActions .narrow (NavBar routes t) = [] := by
      cases t <;> decide
    simp [clickStep, h]
  constructor
  · induction acts generalizing s with
    | nil => rfl
    | cons a as ih => simp [List.foldl, hstep, ih]
  · decide

end Sidebar
